import Mathlib

/- Shallow embedding of the RPO/RTO monitoring core of this repository:
   src/lambda/rto-rpo-monitor.py and src/scripts/backup-testing-framework.py.

   Conventions:
   - timestamps and timedeltas are rationals measured in seconds; values whose
     name says "minutes" are rationals measured in minutes;
   - the Python float('inf') sentinel is the constructor PyFloat.inf;
   - an AWS API call that raises inside a try block is an Except.error input,
     so the except branches of the source become the .error cases here. -/

namespace LabelMint

/-- Python float value used for RPO/lag measurements: either a finite rational
number of minutes or the float('inf') sentinel. -/
inductive PyFloat where
  | finite (q : ℚ)
  | inf
  deriving DecidableEq, Repr

/-- Python comparison `x > t` for x a possibly-infinite float and t finite:
+inf compares greater than any finite threshold. -/
def PyFloat.gtQ : PyFloat → ℚ → Bool
  | .inf, _ => true
  | .finite q, t => decide (t < q)

/-- One entry of a list_recovery_points_by_backup_vault response:
its Status string and CreationDate (seconds since epoch). -/
structure RecoveryPoint where
  Status : String
  CreationDate : ℚ
  deriving DecidableEq, Repr

/-- monitor_postgresql_rpo (rto-rpo-monitor.py lines 80-118). The response is
Except.error when the API call raises (the except branch returns inf); an empty
RecoveryPoints list or no COMPLETED recovery point also yields inf; otherwise
the RPO in minutes is (now - CreationDate of the first COMPLETED point) / 60. -/
def monitor_postgresql_rpo (response : Except String (List RecoveryPoint))
    (now : ℚ) : PyFloat :=
  match response with
  | .error _ => PyFloat.inf
  | .ok rps =>
    if rps.isEmpty then PyFloat.inf
    else
      match rps.find? (fun rp => rp.Status == "COMPLETED") with
      | none => PyFloat.inf
      | some latest_backup => PyFloat.finite ((now - latest_backup.CreationDate) / 60)

/-- One entry of a describe_snapshots response: SnapshotStatus and
SnapshotCreateTime (seconds since epoch). -/
structure RedisSnapshot where
  SnapshotStatus : String
  SnapshotCreateTime : ℚ
  deriving DecidableEq, Repr

/-- The latest-available-snapshot selection loop of monitor_redis_rpo
(rto-rpo-monitor.py lines 137-141): keep a snapshot when its status is
"available" and its SnapshotCreateTime is strictly greater than the current
best. -/
def latestAvailableSnapshot (snaps : List RedisSnapshot) : Option RedisSnapshot :=
  snaps.foldl
    (fun latest s =>
      if s.SnapshotStatus == "available" then
        match latest with
        | none => some s
        | some l =>
          if l.SnapshotCreateTime < s.SnapshotCreateTime then some s else some l
      else latest)
    none

/-- monitor_redis_rpo (rto-rpo-monitor.py lines 120-158): inf when the API call
raises, when no snapshots exist, or when none is "available"; otherwise the RPO
in minutes of the latest available snapshot. -/
def monitor_redis_rpo (response : Except String (List RedisSnapshot))
    (now : ℚ) : PyFloat :=
  match response with
  | .error _ => PyFloat.inf
  | .ok snaps =>
    if snaps.isEmpty then PyFloat.inf
    else
      match latestAvailableSnapshot snaps with
      | none => PyFloat.inf
      | some latest_snapshot =>
          PyFloat.finite ((now - latest_snapshot.SnapshotCreateTime) / 60)

/-- The status strings produced by monitor_cross_region_replication. -/
inductive ReplStatusTag where
  | HEALTHY
  | LAGGING
  | NO_PRIMARY_BACKUPS
  | NO_DR_BACKUPS
  | ERROR
  deriving DecidableEq, Repr

/-- The record returned by monitor_cross_region_replication; the echoed
primary/dr backup timestamps of the success dict are omitted since nothing
downstream reads them. -/
structure ReplicationStatus where
  status : ReplStatusTag
  lag_minutes : PyFloat
  deriving DecidableEq, Repr

/-- monitor_cross_region_replication (rto-rpo-monitor.py lines 160-204): ERROR
with inf lag when either API call raises, NO_PRIMARY_BACKUPS / NO_DR_BACKUPS
with inf lag when a vault is empty, otherwise the lag in minutes
(dr_time - primary_time)/60 with status HEALTHY iff the lag is < 60. -/
def monitor_cross_region_replication
    (primary_response dr_response : Except String (List RecoveryPoint)) :
    ReplicationStatus :=
  match primary_response, dr_response with
  | .error _, _ => ⟨ReplStatusTag.ERROR, PyFloat.inf⟩
  | _, .error _ => ⟨ReplStatusTag.ERROR, PyFloat.inf⟩
  | .ok prs, .ok drs =>
    match prs, drs with
    | [], _ => ⟨ReplStatusTag.NO_PRIMARY_BACKUPS, PyFloat.inf⟩
    | _ :: _, [] => ⟨ReplStatusTag.NO_DR_BACKUPS, PyFloat.inf⟩
    | p :: _, d :: _ =>
      let replication_lag := (d.CreationDate - p.CreationDate) / 60
      ⟨if replication_lag < 60 then ReplStatusTag.HEALTHY else ReplStatusTag.LAGGING,
       PyFloat.finite replication_lag⟩

/-- Per-resource RPO score (rto-rpo-monitor.py lines 211 and 214):
max(0, 100 - (rpo / rpo_threshold) * 100) for a finite rpo, 0 for inf. -/
def rpoScore (rpo : PyFloat) (rpo_threshold : ℚ) : ℚ :=
  match rpo with
  | .finite q => max 0 (100 - q / rpo_threshold * 100)
  | .inf => 0

/-- Replication component score (rto-rpo-monitor.py lines 216-222): 100 when
HEALTHY, max(0, 100 - (lag/60)*100) when LAGGING (with lag = inf this Python
expression is max(0, -inf) = 0), 0 for every other status. -/
def replicationScore (replication_status : ReplicationStatus) : ℚ :=
  match replication_status.status with
  | ReplStatusTag.HEALTHY => 100
  | ReplStatusTag.LAGGING =>
    match replication_status.lag_minutes with
    | .finite l => max 0 (100 - l / 60 * 100)
    | .inf => 0
  | _ => 0

/-- calculate_backup_health_score (rto-rpo-monitor.py lines 206-233): weighted
sum of the three component scores. When rpo_threshold = 0 and either RPO is
finite, Python raises ZeroDivisionError inside the try block and the except
branch returns 0; that case is the first branch here. -/
def calculate_backup_health_score (postgres_rpo redis_rpo : PyFloat)
    (replication_status : ReplicationStatus) (rpo_threshold : ℚ) : ℚ :=
  if rpo_threshold = 0 ∧ (postgres_rpo ≠ PyFloat.inf ∨ redis_rpo ≠ PyFloat.inf) then 0
  else
    rpoScore postgres_rpo rpo_threshold * (4 / 10)
      + rpoScore redis_rpo rpo_threshold * (3 / 10)
      + replicationScore replication_status * (3 / 10)

/-- One CloudWatch metric datum: its MetricName and Value. -/
structure Metric where
  MetricName : String
  Value : ℚ
  deriving DecidableEq, Repr

/-- publish_metrics_to_cloudwatch (rto-rpo-monitor.py lines 235-317) as the
list of metric data it publishes: the PostgreSQLRPO, RedisRPO and
ReplicationLag metrics are appended only when the value is not inf; the
BackupHealthScore metric and the numeric ReplicationStatus metric
(1 = HEALTHY, 0.5 = LAGGING, 0 otherwise) are always appended. -/
def publish_metrics_to_cloudwatch (postgres_rpo redis_rpo : PyFloat)
    (replication_status : ReplicationStatus) (health_score : ℚ) : List Metric :=
  (match postgres_rpo with
   | .finite q => [Metric.mk "PostgreSQLRPO" q]
   | .inf => [])
  ++ (match redis_rpo with
      | .finite q => [Metric.mk "RedisRPO" q]
      | .inf => [])
  ++ (match replication_status.lag_minutes with
      | .finite q => [Metric.mk "ReplicationLag" q]
      | .inf => [])
  ++ [Metric.mk "BackupHealthScore" health_score]
  ++ [Metric.mk "ReplicationStatus"
        (match replication_status.status with
         | ReplStatusTag.HEALTHY => 1
         | ReplStatusTag.LAGGING => 1 / 2
         | _ => 0)]

/-- The kinds of alert messages send_alerts_if_needed can append. -/
inductive AlertKind where
  | PG_RPO_EXCEEDED
  | REDIS_RPO_EXCEEDED
  | REPLICATION_ISSUE
  | HIGH_REPLICATION_LAG
  | LOW_HEALTH_SCORE
  deriving DecidableEq, Repr

/-- send_alerts_if_needed (rto-rpo-monitor.py lines 319-379) as the list of
alerts it accumulates: postgres RPO compared against the rpo_threshold
parameter, redis RPO against the hard-coded redis_rpo_threshold = 24*60,
replication hard failures and lag > 120, and health score < 80. -/
def send_alerts_if_needed (postgres_rpo redis_rpo : PyFloat)
    (replication_status : ReplicationStatus) (rpo_threshold health_score : ℚ) :
    List AlertKind :=
  (if postgres_rpo.gtQ rpo_threshold then [AlertKind.PG_RPO_EXCEEDED] else [])
  ++ (if redis_rpo.gtQ (24 * 60) then [AlertKind.REDIS_RPO_EXCEEDED] else [])
  ++ (match replication_status.status with
      | ReplStatusTag.NO_PRIMARY_BACKUPS => [AlertKind.REPLICATION_ISSUE]
      | ReplStatusTag.NO_DR_BACKUPS => [AlertKind.REPLICATION_ISSUE]
      | ReplStatusTag.ERROR => [AlertKind.REPLICATION_ISSUE]
      | ReplStatusTag.LAGGING =>
        if replication_status.lag_minutes.gtQ 120 then [AlertKind.HIGH_REPLICATION_LAG]
        else []
      | ReplStatusTag.HEALTHY => [])
  ++ (if health_score < 80 then [AlertKind.LOW_HEALTH_SCORE] else [])

/- Embedding of src/scripts/backup-testing-framework.py. -/

/-- The TestResult enum of the framework. -/
inductive TestResult where
  | PASSED
  | FAILED
  | SKIPPED
  | TIMEOUT
  deriving DecidableEq, Repr

/-- The TestMetrics dataclass. Timedeltas are rationals in seconds; the two
optional objectives are none when the Python field is None. -/
structure TestMetrics where
  test_name : String
  start_time : ℚ
  end_time : ℚ
  result : TestResult
  details : List (String × String)
  recovery_point_objective : Option ℚ
  recovery_time_objective : Option ℚ
  deriving DecidableEq, Repr

/-- Python timedelta.max expressed in seconds:
999999999 days, 23 hours, 59 minutes, 59.999999 seconds. -/
def timedelta_max_seconds : ℚ := 86399999999999 + 999999 / 1000000

/-- _calculate_postgresql_rpo (backup-testing-framework.py lines 971-982):
describing the latest recovery point either raises (.error input) or yields its
CreationDate; the result is the timedelta now - backup_time in seconds, and on
any exception the sentinel timedelta.max. -/
def calculate_postgresql_rpo (recovery_point_creation : Except String ℚ)
    (now : ℚ) : ℚ :=
  match recovery_point_creation with
  | .ok backup_time => now - backup_time
  | .error _ => timedelta_max_seconds

/-- Python truthiness of an Optional[timedelta] as used in the report list
comprehensions: None and timedelta(0) are falsy, everything else truthy. -/
def timedeltaTruthy : Option ℚ → Bool
  | none => false
  | some d => decide (d ≠ 0)

/-- The rpo_values list comprehension of _generate_test_report
(backup-testing-framework.py lines 1129-1130): total_seconds()/60 of every
recovery_point_objective that is truthy. -/
def rpo_values (test_results : List TestMetrics) : List ℚ :=
  test_results.filterMap (fun r =>
    if timedeltaTruthy r.recovery_point_objective then
      r.recovery_point_objective.map (fun d => d / 60)
    else none)

/-- The rto_values list comprehension of _generate_test_report
(backup-testing-framework.py lines 1127-1128). -/
def rto_values (test_results : List TestMetrics) : List ℚ :=
  test_results.filterMap (fun r =>
    if timedeltaTruthy r.recovery_time_objective then
      r.recovery_time_objective.map (fun d => d / 60)
    else none)

/-- Python max over a nonempty list, none for the empty list (the source only
computes it behind a nonemptiness guard). -/
def listMax : List ℚ → Option ℚ
  | [] => none
  | v :: vs => some (vs.foldl max v)

/-- The fields of the report dict assembled by _generate_test_report
(backup-testing-framework.py lines 1094-1138): summary counts, one tests entry
per result, and the rpo_rto_analysis statistics, present only when the
corresponding value list is nonempty. -/
structure TestReport where
  total_tests : Nat
  passed : Nat
  failed : Nat
  skipped : Nat
  tests : List String
  max_rto_minutes : Option ℚ
  avg_rto_minutes : Option ℚ
  max_rpo_minutes : Option ℚ
  avg_rpo_minutes : Option ℚ
  deriving DecidableEq, Repr

/-- _generate_test_report as the report record it assembles. -/
def generate_test_report (test_results : List TestMetrics) : TestReport :=
  let rtos := rto_values test_results
  let rpos := rpo_values test_results
  ⟨test_results.length,
   (test_results.filter (fun r => decide (r.result = TestResult.PASSED))).length,
   (test_results.filter (fun r => decide (r.result = TestResult.FAILED))).length,
   (test_results.filter (fun r => decide (r.result = TestResult.SKIPPED))).length,
   test_results.map (fun r => r.test_name),
   listMax rtos,
   if rtos.isEmpty then none else some (rtos.sum / (rtos.length : ℚ)),
   listMax rpos,
   if rpos.isEmpty then none else some (rpos.sum / (rpos.length : ℚ))⟩

/-- The body of the run_all_tests loop (backup-testing-framework.py lines
1061-1086) for one test: a returned TestMetrics is recorded as-is, and a raised
exception is recorded as a fresh FAILED TestMetrics carrying the error text. -/
def runOneTest (test_name : String) (outcome : Except String TestMetrics) :
    TestMetrics :=
  match outcome with
  | .ok result => result
  | .error e => ⟨test_name, 0, 0, TestResult.FAILED, [("error", e)], none, none⟩

/-- run_all_tests (backup-testing-framework.py lines 1045-1092): every
configured test is run in order with no early abort, and each contributes one
entry to the results. -/
def run_all_tests (tests : List (String × Except String TestMetrics)) :
    List (String × TestMetrics) :=
  tests.map (fun t => (t.1, runOneTest t.1 t.2))

/-- A test outcome that either raised or returned a FAILED result. -/
def outcomeFailed : Except String TestMetrics → Bool
  | .error _ => true
  | .ok m => decide (m.result = TestResult.FAILED)

/-- The failed_tests check shared by _send_notifications and main: the run as a
whole is failed when some recorded result is FAILED. -/
def overall_run_failed (test_results : List TestMetrics) : Bool :=
  test_results.any (fun r => decide (r.result = TestResult.FAILED))

/-- The exit-code decision of main (backup-testing-framework.py lines
1238-1245): exit 1 when any recorded test result is FAILED, else exit 0. -/
def main_exit_code (test_results : List TestMetrics) : Nat :=
  if (test_results.filter (fun r => decide (r.result = TestResult.FAILED))).isEmpty
  then 0 else 1

/-- A concrete configured-test list with one raising test and one passing test,
used to instantiate the orchestration theorems. -/
def sampleFailedTests : List (String × Except String TestMetrics) :=
  [("postgresql", Except.error "probe unavailable"),
   ("redis", Except.ok ⟨"redis_backup_recovery", 0, 1, TestResult.PASSED, [], none, none⟩)]

/-- C1: for finite postgres and redis RPOs, any replication record, and a
nonzero threshold, calculate_backup_health_score returns the weighted sum
postgres_score * 0.4 + redis_score * 0.3 + replication_score * 0.3, where each
per-resource RPO score is max(0, 100 - (rpo / rpo_threshold) * 100). -/
theorem c1_health_score_weighted_sum (p r : ℚ) (s : ReplicationStatus) (t : ℚ)
    (ht : t ≠ 0) :
    calculate_backup_health_score (PyFloat.finite p) (PyFloat.finite r) s t =
      max 0 (100 - p / t * 100) * (4 / 10)
        + max 0 (100 - r / t * 100) * (3 / 10)
        + replicationScore s * (3 / 10) := by
  simp [calculate_backup_health_score, rpoScore, ht]

/-- C1 witness: threshold 60, postgres RPO 0, redis RPO 60 and a LAGGING record
with lag 30 give per-resource scores 100, 0 and 50 and overall score 55. -/
theorem c1_health_score_weighted_sum_witness :
    calculate_backup_health_score (PyFloat.finite 0) (PyFloat.finite 60)
        ⟨ReplStatusTag.LAGGING, PyFloat.finite 30⟩ 60 = 55 := by
  have h := c1_health_score_weighted_sum 0 60
    ⟨ReplStatusTag.LAGGING, PyFloat.finite 30⟩ 60 (by norm_num)
  rw [h]
  norm_num [replicationScore]

/-- C2: when no recovery point has status COMPLETED (in particular when there
are none at all), monitor_postgresql_rpo returns inf, and the per-resource
score that calculate_backup_health_score assigns to an inf RPO is exactly 0
for every threshold. -/
theorem c2_no_completed_backup_inf_score_zero (rps : List RecoveryPoint)
    (now t : ℚ) (h : ∀ rp ∈ rps, rp.Status ≠ "COMPLETED") :
    monitor_postgresql_rpo (Except.ok rps) now = PyFloat.inf ∧
      rpoScore PyFloat.inf t = 0 := by
  refine ⟨?_, rfl⟩
  have hfind : rps.find? (fun rp => rp.Status == "COMPLETED") = none := by
    rw [List.find?_eq_none]
    intro x hx
    simpa using h x hx
  by_cases he : rps.isEmpty <;> simp [monitor_postgresql_rpo, he, hfind]

/-- C2 witness: a single IN_PROGRESS recovery point yields RPO inf and score 0
at threshold 60. -/
theorem c2_no_completed_backup_inf_score_zero_witness :
    monitor_postgresql_rpo (Except.ok [⟨"IN_PROGRESS", 100⟩]) 200 = PyFloat.inf ∧
      rpoScore PyFloat.inf 60 = 0 :=
  c2_no_completed_backup_inf_score_zero [⟨"IN_PROGRESS", 100⟩] 200 60 (by decide)

/-- C3 counterexample: with the primary backup at 0 s and the DR backup at
3600 s the lag is exactly 60 minutes, yet the status is LAGGING, not the
HEALTHY the claim requires at lag ≤ 60. -/
theorem c3_counterexample :
    monitor_cross_region_replication
        (Except.ok [⟨"COMPLETED", 0⟩]) (Except.ok [⟨"COMPLETED", 3600⟩]) =
      ⟨ReplStatusTag.LAGGING, PyFloat.finite 60⟩ := by
  norm_num [monitor_cross_region_replication]

/-- C3 amended: monitor_cross_region_replication classifies HEALTHY exactly
when the lag is strictly less than 60 minutes and LAGGING exactly when the lag
is at least 60 minutes, so a lag of exactly 60 is LAGGING. -/
theorem c3_lag_boundary (p d : RecoveryPoint) (ps ds : List RecoveryPoint) :
    ((monitor_cross_region_replication (Except.ok (p :: ps))
        (Except.ok (d :: ds))).status = ReplStatusTag.HEALTHY
      ↔ (d.CreationDate - p.CreationDate) / 60 < 60) ∧
    ((monitor_cross_region_replication (Except.ok (p :: ps))
        (Except.ok (d :: ds))).status = ReplStatusTag.LAGGING
      ↔ 60 ≤ (d.CreationDate - p.CreationDate) / 60) := by
  unfold monitor_cross_region_replication
  dsimp only
  constructor
  · split_ifs with h <;> simp [h, not_lt.mp]
  · split_ifs with h <;> simp [not_lt.mp, h, not_le.mpr]

/-- C3 witness: a 59-minute lag is HEALTHY and a 60-minute lag is LAGGING. -/
theorem c3_lag_boundary_witness :
    (monitor_cross_region_replication (Except.ok [⟨"COMPLETED", 0⟩])
        (Except.ok [⟨"COMPLETED", 3540⟩])).status = ReplStatusTag.HEALTHY ∧
    (monitor_cross_region_replication (Except.ok [⟨"COMPLETED", 0⟩])
        (Except.ok [⟨"COMPLETED", 3600⟩])).status = ReplStatusTag.LAGGING :=
  ⟨(c3_lag_boundary ⟨"COMPLETED", 0⟩ ⟨"COMPLETED", 3540⟩ [] []).1.mpr (by norm_num),
   (c3_lag_boundary ⟨"COMPLETED", 0⟩ ⟨"COMPLETED", 3600⟩ [] []).2.mpr (by norm_num)⟩

/-- C4 counterexample: a lag of 61 minutes, just past the healthy boundary,
already scores 0 (the claim predicts a score near 100), and so does a lag of
90 minutes (the claim predicts 50). -/
theorem c4_counterexample :
    replicationScore ⟨ReplStatusTag.LAGGING, PyFloat.finite 61⟩ = 0 ∧
      replicationScore ⟨ReplStatusTag.LAGGING, PyFloat.finite 90⟩ = 0 := by
  constructor <;> norm_num [replicationScore, max_def]

/-- C4 amended: for a LAGGING record with finite lag the replication component
score is max(0, 100 - (lag/60)*100), which falls from 100 at lag 0 to 0 at
lag 60; in particular every lag of at least 60 minutes — hence every LAGGING
record the monitor can produce — scores exactly 0. -/
theorem c4_lagging_score (l : ℚ) :
    replicationScore ⟨ReplStatusTag.LAGGING, PyFloat.finite l⟩
        = max 0 (100 - l / 60 * 100) ∧
      (60 ≤ l →
        replicationScore ⟨ReplStatusTag.LAGGING, PyFloat.finite l⟩ = 0) := by
  refine ⟨rfl, fun h => ?_⟩
  have hx : 100 - l / 60 * 100 ≤ 0 := by
    have : (100 : ℚ) ≤ l / 60 * 100 := by
      rw [div_mul_eq_mul_div, le_div_iff₀ (by norm_num : (0:ℚ) < 60)]
      linarith
    linarith
  simp [replicationScore, max_eq_left hx]

/-- C4 witness: at lag 72 the LAGGING score is 0. -/
theorem c4_lagging_score_witness :
    replicationScore ⟨ReplStatusTag.LAGGING, PyFloat.finite 72⟩ = 0 :=
  (c4_lagging_score 72).2 (by norm_num)

/-- C5 counterexample: with the DR backup 3600 s older than the primary the
computed lag is -60 minutes, returned unclamped, and the record is classified
HEALTHY — no clamp to 0 and no anomaly flag, contrary to the claim. -/
theorem c5_counterexample :
    monitor_cross_region_replication
        (Except.ok [⟨"COMPLETED", 3600⟩]) (Except.ok [⟨"COMPLETED", 0⟩]) =
      ⟨ReplStatusTag.HEALTHY, PyFloat.finite (-60)⟩ := by
  norm_num [monitor_cross_region_replication]

/-- C5 amended: when the DR timestamp is earlier than the primary timestamp the
negative lag is passed through as-is in lag_minutes and, being below 60, the
record is classified HEALTHY; nothing clamps it to 0 or flags an anomaly. -/
theorem c5_negative_lag_passthrough (p d : RecoveryPoint)
    (ps ds : List RecoveryPoint) (h : d.CreationDate < p.CreationDate) :
    monitor_cross_region_replication (Except.ok (p :: ps)) (Except.ok (d :: ds))
        = ⟨ReplStatusTag.HEALTHY,
           PyFloat.finite ((d.CreationDate - p.CreationDate) / 60)⟩ ∧
      (d.CreationDate - p.CreationDate) / 60 < 0 := by
  have hneg : (d.CreationDate - p.CreationDate) / 60 < 0 :=
    div_neg_of_neg_of_pos (by linarith) (by norm_num)
  refine ⟨?_, hneg⟩
  unfold monitor_cross_region_replication
  dsimp only
  rw [if_pos (by linarith : (d.CreationDate - p.CreationDate) / 60 < 60)]

/-- C5 witness: the pass-through theorem at primary 3600 s, DR 0 s. -/
theorem c5_negative_lag_passthrough_witness :
    monitor_cross_region_replication
        (Except.ok [⟨"COMPLETED", 3600⟩]) (Except.ok [⟨"COMPLETED", 0⟩])
      = ⟨ReplStatusTag.HEALTHY, PyFloat.finite ((0 - 3600) / 60)⟩ :=
  (c5_negative_lag_passthrough ⟨"COMPLETED", 3600⟩ ⟨"COMPLETED", 0⟩ [] []
      (by norm_num)).1

/-- C6: the health score is not confined to [0, 100] — with clock-skewed
negative RPOs of -60 minutes for both databases, HEALTHY replication and
threshold 60, calculate_backup_health_score returns 170, contradicting the
claim and the function docstring range 0-100. -/
theorem c6_score_exceeds_100 :
    calculate_backup_health_score (PyFloat.finite (-60)) (PyFloat.finite (-60))
        ⟨ReplStatusTag.HEALTHY, PyFloat.finite 0⟩ 60 = 170 ∧ (100 : ℚ) < 170 := by
  constructor
  · norm_num [calculate_backup_health_score, rpoScore, replicationScore, max_def]
  · norm_num

/-- C7: every failure case has a defined sentinel result instead of an
exception: a raising probe call or missing/empty snapshot data gives RPO inf
from both RPO monitors, and monitor_cross_region_replication returns a status
record whose lag is inf in every error and missing-backup case. -/
theorem c7_failure_cases_defined :
    (∀ (e : String) (now : ℚ),
        monitor_postgresql_rpo (Except.error e) now = PyFloat.inf) ∧
    (∀ now : ℚ, monitor_postgresql_rpo (Except.ok []) now = PyFloat.inf) ∧
    (∀ (e : String) (now : ℚ),
        monitor_redis_rpo (Except.error e) now = PyFloat.inf) ∧
    (∀ now : ℚ, monitor_redis_rpo (Except.ok []) now = PyFloat.inf) ∧
    (∀ (now : ℚ) (snaps : List RedisSnapshot),
        latestAvailableSnapshot snaps = none →
          monitor_redis_rpo (Except.ok snaps) now = PyFloat.inf) ∧
    (∀ (e : String) (resp : Except String (List RecoveryPoint)),
        (monitor_cross_region_replication (Except.error e) resp).lag_minutes
          = PyFloat.inf) ∧
    (∀ (e : String) (resp : Except String (List RecoveryPoint)),
        (monitor_cross_region_replication resp (Except.error e)).lag_minutes
          = PyFloat.inf) ∧
    (∀ ds : List RecoveryPoint,
        (monitor_cross_region_replication (Except.ok []) (Except.ok ds)).lag_minutes
          = PyFloat.inf) ∧
    (∀ (pr : RecoveryPoint) (prs : List RecoveryPoint),
        (monitor_cross_region_replication (Except.ok (pr :: prs))
            (Except.ok [])).lag_minutes = PyFloat.inf) := by
  refine ⟨fun e now => rfl, fun now => rfl, fun e now => rfl, fun now => rfl,
    ?_, fun e resp => ?_, fun e resp => ?_, fun ds => rfl, fun pr prs => rfl⟩
  · intro now snaps hnone
    by_cases he : snaps.isEmpty <;> simp [monitor_redis_rpo, he, hnone]
  · cases resp <;> rfl
  · cases resp <;> rfl

/-- C7 witness: a raising postgres probe, a snapshot list with no available
snapshot, and two empty vaults all produce the inf sentinel. -/
theorem c7_failure_cases_defined_witness :
    monitor_postgresql_rpo (Except.error "connect timeout") 0 = PyFloat.inf ∧
    monitor_redis_rpo (Except.ok [⟨"creating", 5⟩]) 10 = PyFloat.inf ∧
    (monitor_cross_region_replication (Except.ok [])
        (Except.ok [])).lag_minutes = PyFloat.inf :=
  ⟨c7_failure_cases_defined.1 "connect timeout" 0,
   c7_failure_cases_defined.2.2.2.2.1 10 [⟨"creating", 5⟩] (by decide),
   c7_failure_cases_defined.2.2.2.2.2.2.2.1 []⟩

/-- C8: the sentinel does poison the report average: _calculate_postgresql_rpo
returns timedelta.max on failure, the truthiness filter of the report keeps it
(only None and zero are falsy), and a run whose only RPO measurement is that
sentinel reports avg_rpo_minutes = timedelta.max/60, an absurd value above
10^9 minutes — contradicting the claim that unbounded sentinels never enter
an average. -/
theorem c8_sentinel_poisons_average :
    calculate_postgresql_rpo (Except.error "probe failed") 0
        = timedelta_max_seconds ∧
    (generate_test_report
        [⟨"postgresql_backup_recovery", 0, 1, TestResult.FAILED, [],
          some timedelta_max_seconds, none⟩]).avg_rpo_minutes
      = some (timedelta_max_seconds / 60) ∧
    (10 ^ 9 : ℚ) < timedelta_max_seconds / 60 := by
  have h0 : timedelta_max_seconds ≠ 0 := by norm_num [timedelta_max_seconds]
  refine ⟨rfl, ?_, by norm_num [timedelta_max_seconds]⟩
  simp [generate_test_report, rpo_values, rto_values, timedeltaTruthy, h0]

/-- Helper: an outcome that raised or came back FAILED is recorded as a FAILED
result by the run_all_tests loop body. -/
theorem runOneTest_failed_of_outcomeFailed (n : String)
    (o : Except String TestMetrics) (h : outcomeFailed o = true) :
    (runOneTest n o).result = TestResult.FAILED := by
  cases o with
  | error e => rfl
  | ok m =>
    simp only [outcomeFailed, decide_eq_true_eq] at h
    simpa [runOneTest] using h

/-- C9: when some configured test raises or returns FAILED, run_all_tests still
produces one result per configured test in order (no early abort), the report
counts them all, the overall run is failed, and main exits with code 1. -/
theorem c9_failed_run_complete (tests : List (String × Except String TestMetrics))
    (h : ∃ t ∈ tests, outcomeFailed t.2 = true) :
    (run_all_tests tests).length = tests.length ∧
    (run_all_tests tests).map Prod.fst = tests.map Prod.fst ∧
    (generate_test_report ((run_all_tests tests).map Prod.snd)).total_tests
      = tests.length ∧
    overall_run_failed ((run_all_tests tests).map Prod.snd) = true ∧
    main_exit_code ((run_all_tests tests).map Prod.snd) = 1 := by
  obtain ⟨t, ht, hf⟩ := h
  have hmem : runOneTest t.1 t.2 ∈ (run_all_tests tests).map Prod.snd := by
    rw [run_all_tests, List.map_map]
    exact List.mem_map.mpr ⟨t, ht, rfl⟩
  have hfail : (runOneTest t.1 t.2).result = TestResult.FAILED :=
    runOneTest_failed_of_outcomeFailed t.1 t.2 hf
  have hm2 : runOneTest t.1 t.2 ∈
      ((run_all_tests tests).map Prod.snd).filter
        (fun r => decide (r.result = TestResult.FAILED)) :=
    List.mem_filter.mpr ⟨hmem, by simp [hfail]⟩
  refine ⟨by simp [run_all_tests], ?_,
    by simp [generate_test_report, run_all_tests], ?_, ?_⟩
  · rw [run_all_tests, List.map_map]
    exact List.map_congr_left fun a _ => rfl
  · rw [overall_run_failed, List.any_eq_true]
    exact ⟨runOneTest t.1 t.2, hmem, by simp [hfail]⟩
  · have hni : ¬ ((((run_all_tests tests).map Prod.snd).filter
        (fun r => decide (r.result = TestResult.FAILED))).isEmpty = true) := by
      simp only [List.isEmpty_iff]
      exact fun hnil => (List.ne_nil_of_mem hm2) hnil
    rw [main_exit_code, if_neg hni]

/-- C9 witness: with a raising postgres test and a passing redis test, both
results are recorded, the run is failed and the exit code is 1. -/
theorem c9_failed_run_complete_witness :
    (run_all_tests sampleFailedTests).length = 2 ∧
    overall_run_failed ((run_all_tests sampleFailedTests).map Prod.snd) = true ∧
    main_exit_code ((run_all_tests sampleFailedTests).map Prod.snd) = 1 := by
  have h := c9_failed_run_complete sampleFailedTests
    ⟨("postgresql", Except.error "probe unavailable"), by simp [sampleFailedTests], rfl⟩
  exact ⟨h.1.trans rfl, h.2.2.2.1, h.2.2.2.2⟩

/-- C10: send_alerts_if_needed compares the redis RPO against the fixed
24*60 = 1440 minute threshold, not the rpo_threshold parameter: a finite redis
RPO strictly above rpo_threshold but at most 1440 produces no redis alert,
while the postgres alert fires exactly when the postgres RPO exceeds
rpo_threshold. -/
theorem c10_redis_fixed_threshold (p : PyFloat) (s : ReplicationStatus)
    (q t hs : ℚ) (h1 : t < q) (h2 : q ≤ 1440) :
    AlertKind.REDIS_RPO_EXCEEDED ∉
        send_alerts_if_needed p (PyFloat.finite q) s t hs ∧
      (AlertKind.PG_RPO_EXCEEDED ∈
          send_alerts_if_needed p (PyFloat.finite q) s t hs
        ↔ p.gtQ t = true) ∧
      PyFloat.gtQ (PyFloat.finite q) t = true := by
  have hr : PyFloat.gtQ (PyFloat.finite q) (24 * 60) = false := by
    simp only [PyFloat.gtQ, decide_eq_false_iff_not, not_lt]
    linarith
  refine ⟨?_, ?_, by simp [PyFloat.gtQ, h1]⟩
  all_goals
    obtain ⟨st, lag⟩ := s
    unfold send_alerts_if_needed
    rw [hr]
    cases st <;> split_ifs <;> simp_all

/-- C10 witness: threshold 60, redis RPO 300 (above the threshold, below 1440),
postgres RPO 120: no redis alert, but the postgres alert fires. -/
theorem c10_redis_fixed_threshold_witness :
    AlertKind.REDIS_RPO_EXCEEDED ∉
        send_alerts_if_needed (PyFloat.finite 120) (PyFloat.finite 300)
          ⟨ReplStatusTag.HEALTHY, PyFloat.finite 0⟩ 60 90 ∧
      AlertKind.PG_RPO_EXCEEDED ∈
        send_alerts_if_needed (PyFloat.finite 120) (PyFloat.finite 300)
          ⟨ReplStatusTag.HEALTHY, PyFloat.finite 0⟩ 60 90 := by
  have h := c10_redis_fixed_threshold (PyFloat.finite 120)
    ⟨ReplStatusTag.HEALTHY, PyFloat.finite 0⟩ 300 60 90
    (by norm_num) (by norm_num)
  exact ⟨h.1, h.2.1.mpr (by norm_num [PyFloat.gtQ])⟩

end LabelMint
